import Mathlib

/-!
Verification of the feed acquisition and normalization pipeline of
`src/script.js` (Global News Hub). The JavaScript functions are embedded
shallowly: browser builtins (`fetch`, `DOMParser`, `new Date(text)`,
`encodeURIComponent`) are passed in as function parameters, thrown
exceptions become `Except` values, and a JavaScript `Date` object is
`Option Int` (`none` standing for an Invalid Date, whose timestamp is
`NaN`).
-/

/-- A `<link>` element as seen by `parseRSS` (src/script.js lines 180-183):
its `href` attribute (`none` when the attribute is absent, matching
`getAttribute` returning `null`) and its text content. -/
structure LinkEl where
  href : Option String
  text : String
deriving DecidableEq

/-- One `<item>`/`<entry>` element as extracted by the DOM queries of
`parseRSS` (src/script.js lines 168-197): text of the first `<title>`
(`none` when no title element exists), the first `<link>` element, the
first `description`/`summary`/`content` element, and the text of the first
`pubDate`/`published`/`updated`/`date` element. -/
structure RawEntry where
  titleText : Option String
  link : Option LinkEl
  descText : Option String
  pubDateText : Option String
deriving DecidableEq

/-- One normalized news item as pushed by `parseRSS`
(src/script.js lines 199-207). `pubDate` is `some t` for a valid `Date`
with timestamp `t`, `none` for an Invalid Date. -/
structure NewsItem where
  title : String
  link : String
  description : String
  pubDate : Option Int
  isHot : Bool
deriving DecidableEq

/-- The JavaScript `String.prototype.trim` builtin, modelled on the
character list: strip whitespace from both ends. -/
def jsTrim (s : String) : String :=
  String.mk
    (((s.toList.dropWhile Char.isWhitespace).reverse.dropWhile
        Char.isWhitespace).reverse)

/-- The title/description cleanup of src/script.js lines 173-176 and
187-188: trim, then apply
`replace(/^\s*<!\[CDATA\[(.*)\]\]>\s*$/s, `$1`)` — on an already trimmed
string the `\s*` parts match nothing, so the regex fires exactly when the
whole string is a literal CDATA wrapper (first 9 characters `<![CDATA[`,
last 3 characters `]]>`, no overlap) — and trim the replaced result. -/
def cleanText (s : String) : String :=
  let t := jsTrim s
  if t.toList.take 9 = "<![CDATA[".toList ∧ 12 ≤ t.length ∧
      t.toList.drop (t.length - 3) = "]]>".toList then
    jsTrim (String.mk ((t.toList.drop 9).take (t.length - 12)))
  else t

/-- Title extraction (src/script.js lines 172-176): empty string when no
title element exists, otherwise the cleaned text. -/
def entryTitle (e : RawEntry) : String :=
  match e.titleText with
  | some s => cleanText s
  | none => ""

/-- Link extraction (src/script.js lines 179-183):
`linkEl.getAttribute(`href`) || linkEl.textContent.trim()`, defaulting to
the empty string when no link element exists. A `null` or empty `href`
attribute is falsy, so the text content is used then. -/
def entryLink (e : RawEntry) : String :=
  match e.link with
  | none => ""
  | some l =>
    match l.href with
    | some h => if h = "" then jsTrim l.text else h
    | none => jsTrim l.text

/-- Description extraction (src/script.js lines 186-188). -/
def entryDesc (e : RawEntry) : String :=
  match e.descText with
  | some s => cleanText s
  | none => ""

/-- Publication-date extraction (src/script.js lines 190-197). `dparse`
models the JavaScript `Date` constructor on a string (`none` = Invalid
Date). When no date element exists the default `new Date()` (= `some now`)
survives. The `try/catch` in the source is dead code: `new Date(text)`
does not throw on unparseable text, it yields an Invalid Date, which is
what the model returns via `dparse`. -/
def entryPubDate (e : RawEntry) (now : Int) (dparse : String → Option Int) :
    Option Int :=
  match e.pubDateText with
  | none => some now
  | some s => dparse s

/-- The body of the `forEach` callback for one entry at raw index `index`
(src/script.js lines 171-207), minus the index cap: `some item` when the
cleaned title is non-empty (the item is pushed), `none` when the entry is
skipped. `isHot` comes from the raw index: `index < 3`. -/
def processEntry (now : Int) (dparse : String → Option Int) (index : Nat)
    (e : RawEntry) : Option NewsItem :=
  if entryTitle e ≠ "" then
    some { title := entryTitle e
           link := entryLink e
           description := entryDesc e
           pubDate := entryPubDate e now dparse
           isHot := decide (index < 3) }
  else none

/-- The `forEach` loop of src/script.js lines 168-208: `index` counts raw
entries; entries at raw index ≥ 8 are skipped by the early return (the
8-item cap), entries whose cleaned title is empty are skipped by the
`if (title)` guard, and the rest are pushed in document order. -/
def parseRSSGo (now : Int) (dparse : String → Option Int) :
    Nat → List RawEntry → List NewsItem
  | _, [] => []
  | index, e :: rest =>
    if index ≥ 8 then parseRSSGo now dparse (index + 1) rest
    else
      match processEntry now dparse index e with
      | some it => it :: parseRSSGo now dparse (index + 1) rest
      | none => parseRSSGo now dparse (index + 1) rest

/-- The parsed XML document as inspected by `parseRSS`
(src/script.js lines 149-166): whether a `parsererror` element is present,
the `<item>` elements (RSS 2.0) and the `<entry>` elements (Atom). -/
structure XmlDoc where
  hasParserError : Bool
  rssItems : List RawEntry
  atomEntries : List RawEntry
deriving DecidableEq

/-- Schema selection (src/script.js lines 160-166): use the `<item>`
elements; when there are none, fall back to the `<entry>` elements. -/
def selectedEntries (doc : XmlDoc) : List RawEntry :=
  if doc.rssItems.isEmpty then doc.atomEntries else doc.rssItems

/-- `parseRSS` (src/script.js lines 148-211) on an already DOM-parsed
document: throw on a `parsererror`, otherwise return the collected items —
including, unchanged, the empty list when nothing survives filtering. -/
def parseRSS (doc : XmlDoc) (now : Int) (dparse : String → Option Int) :
    Except String (List NewsItem) :=
  if doc.hasParserError then Except.error "Failed to parse RSS XML"
  else Except.ok (parseRSSGo now dparse 0 (selectedEntries doc))

/-- `formatTimeAgo` (src/script.js lines 216-234). The argument is a
JavaScript `Date`: `none` models a value caught by the
`!(date instanceof Date) || isNaN(date)` guard. `Math.floor` of a division
by a positive constant is `Int.fdiv`. -/
def formatTimeAgo (date : Option Int) (now : Int) : String :=
  match date with
  | none => "刚刚更新"
  | some d =>
    let diffMs : Int := now - d
    let diffMins : Int := Int.fdiv diffMs 60000
    if diffMins < 0 then "刚刚更新"
    else if diffMins < 1 then "刚刚更新"
    else if diffMins < 60 then toString diffMins ++ "分钟前更新"
    else
      let diffHours : Int := Int.fdiv diffMins 60
      if diffHours < 24 then toString diffHours ++ "小时前更新"
      else toString (Int.fdiv diffHours 24) ++ "天前更新"

/-- The CORS proxy list (src/script.js lines 94-98), in declared order;
the empty string means "try direct first". -/
def CORS_PROXIES : List String :=
  ["", "https://api.allorigins.win/raw?url=", "https://corsproxy.io/?"]

/-- The URL actually fetched for one proxy strategy (src/script.js
line 134): `proxy ? proxy + encodeURIComponent(url) : url`, the empty
proxy string being falsy. `enc` models the browser builtin
`encodeURIComponent`. -/
def mkFetchUrl (enc : String → String) (url proxy : String) : String :=
  if proxy ≠ "" then proxy ++ enc url else url

/-- The proxy loop of `fetchWithProxy` (src/script.js lines 131-143),
instrumented with the list of fetch URLs attempted, in order. `fetch`
models one awaited `fetchRSS` call: `Except.ok body` on success,
`Except.error message` for a thrown error. The loop returns on the first
success, so no later strategy is attempted, and when every strategy fails
it throws a fresh error with the fixed message "All proxies failed". -/
def tryProxies (fetch : String → Except String String) (enc : String → String)
    (url : String) : List String → List String × Except String String
  | [] => ([], Except.error "All proxies failed")
  | proxy :: rest =>
    let fetchUrl := mkFetchUrl enc url proxy
    match fetch fetchUrl with
    | Except.ok r => ([fetchUrl], Except.ok r)
    | Except.error _ =>
      let next := tryProxies fetch enc url rest
      (fetchUrl :: next.1, next.2)

/-- `fetchWithProxy` (src/script.js lines 131-143): the proxy loop run on
the full `CORS_PROXIES` list, returning the attempted-URL trace and the
result. -/
def fetchWithProxy (fetch : String → Except String String)
    (enc : String → String) (url : String) :
    List String × Except String String :=
  tryProxies fetch enc url CORS_PROXIES

/-- One endpoint attempt of the loop body in `fetchAndRenderSource`
(src/script.js lines 369-370): `fetchWithProxy` on the feed URL, then
`parseRSS` on the body. `domParse` models the `DOMParser` builtin taking
the body text to a parsed document. Returns the fetch trace and either the
item list or the first thrown error. -/
def endpointAttempt (fetch : String → Except String String)
    (enc : String → String) (domParse : String → XmlDoc) (now : Int)
    (dparse : String → Option Int) (feedUrl : String) :
    List String × Except String (List NewsItem) :=
  let r := fetchWithProxy fetch enc feedUrl
  match r.2 with
  | Except.error e => (r.1, Except.error e)
  | Except.ok xmlText => (r.1, parseRSS (domParse xmlText) now dparse)

/-- The outcome `fetchAndRenderSource` renders into the card slot: a news
card with items and an update-time label, or an error card with a
message. -/
inductive FROutcome where
  | success : List NewsItem → String → FROutcome
  | failure : String → FROutcome
deriving DecidableEq

/-- The endpoint loop of `fetchAndRenderSource` (src/script.js
lines 363-400): walk `config.feeds` in order; every error thrown inside
the `try` (fetch, parse, or the explicit `No items found in feed` throw
for an empty parse) is caught and recorded in `lastError`; the first
non-empty parse renders a news card, the label coming from
`formatTimeAgo(items[0]?.pubDate || new Date())` — a `Date` object is
always truthy, even an Invalid Date, so for a non-empty list the first
the date of that item is used as is — and returns; after an exhausted loop the error
card carries `lastError?.message || `Unknown error``. Returns the
accumulated fetch trace and the rendered outcome. -/
def tryFeeds (fetch : String → Except String String) (enc : String → String)
    (domParse : String → XmlDoc) (now : Int) (dparse : String → Option Int)
    (lastError : Option String) :
    List String → List String × FROutcome
  | [] => ([], FROutcome.failure (lastError.getD "Unknown error"))
  | feedUrl :: rest =>
    let a := endpointAttempt fetch enc domParse now dparse feedUrl
    match a.2 with
    | Except.error e =>
      let next := tryFeeds fetch enc domParse now dparse (some e) rest
      (a.1 ++ next.1, next.2)
    | Except.ok items =>
      if items.length = 0 then
        let next :=
          tryFeeds fetch enc domParse now dparse
            (some "No items found in feed") rest
        (a.1 ++ next.1, next.2)
      else
        let latestDate :=
          match items.head? with
          | some it => it.pubDate
          | none => some now
        (a.1, FROutcome.success items (formatTimeAgo latestDate now))

/-- The observable result of one `fetchAndRenderSource` call: its boolean
return value, what was rendered into the card slot (`none` when the
function returned before touching the card), and the fetch URLs
attempted. -/
structure FRResult where
  retval : Bool
  rendered : Option FROutcome
  fetchTrace : List String
deriving DecidableEq

/-- `fetchAndRenderSource` (src/script.js lines 357-401): when no card
element with the source key exists it returns `false` at once — no fetch,
no parse, no rendering; otherwise it walks the feed list and either
renders a news card and returns `true` or renders an error card and
returns `false`. Every endpoint error is caught inside the loop, so the
function never throws; it is modelled as a total function. -/
def fetchAndRenderSource (fetch : String → Except String String)
    (enc : String → String) (domParse : String → XmlDoc) (now : Int)
    (dparse : String → Option Int) (cardExists : Bool)
    (feeds : List String) : FRResult :=
  if cardExists then
    let r := tryFeeds fetch enc domParse now dparse none feeds
    match r.2 with
    | FROutcome.success items ut =>
      { retval := true
        rendered := some (FROutcome.success items ut)
        fetchTrace := r.1 }
    | FROutcome.failure msg =>
      { retval := false
        rendered := some (FROutcome.failure msg)
        fetchTrace := r.1 }
  else { retval := false, rendered := none, fetchTrace := [] }

/-- The per-source DOM card slot. `current` is the identity of the card
element now attached in the document for the source; `content` labels the
result currently displayed; `nextId` is the fresh identity the next
effective `outerHTML` replacement will attach (the nodes created by an
`outerHTML` assignment are new elements, so identities are never
reused). -/
structure SlotState where
  current : Nat
  content : Option String
  nextId : Nat
deriving DecidableEq

/-- The completion write of one resolution
(src/script.js lines 382 and 398: `cardElement.outerHTML = ...`).
`captured` is the element reference the resolution took at its start
(line 359). Per the DOM specification, assigning `outerHTML` replaces the
element with freshly parsed nodes — detaching it — and assigning
`outerHTML` on an element whose parent is null does nothing; so the write
takes effect exactly when the captured element is still the one attached
in the document. No cycle sequence number exists anywhere in the source. -/
def completeWrite (captured : Nat) (result : String) (s : SlotState) :
    SlotState :=
  if captured = s.current then
    { current := s.nextId, content := some result, nextId := s.nextId + 1 }
  else s

/-- A result slot under the sequence-guard discipline. Modelled from the
spec: src/script.js has no such mechanism; spec section 5 prescribes
"tagging results with a cycle sequence number and ignoring out-of-sequence
writes", and this definition follows those words so it can be compared
with `completeWrite`. -/
structure SeqSlot where
  seq : Nat
  content : Option String
deriving DecidableEq

/-- Modelled from the spec: a completion write tagged with the sequence
number of the cycle that issued it; an out-of-sequence write (one tagged
lower than the recorded sequence) is ignored, any other write lands and
records its sequence number. -/
def seqWrite (writerSeq : Nat) (result : String) (s : SeqSlot) : SeqSlot :=
  if writerSeq ≥ s.seq then { seq := writerSeq, content := some result }
  else s

/-- The normalized item built from the entry at raw index `p.1`. -/
def mkItem (now : Int) (dparse : String → Option Int) (p : Nat × RawEntry) :
    NewsItem :=
  { title := entryTitle p.2
    link := entryLink p.2
    description := entryDesc p.2
    pubDate := entryPubDate p.2 now dparse
    isHot := decide (p.1 < 3) }

/-- The parse result one endpoint attempt of `fetchAndRenderSource`
produces (trace dropped). -/
def attemptOf (fetch : String → Except String String) (enc : String → String)
    (domParse : String → XmlDoc) (now : Int) (dparse : String → Option Int)
    (f : String) : Except String (List NewsItem) :=
  (endpointAttempt fetch enc domParse now dparse f).2

/-- The message recorded in `lastError` for one failed endpoint attempt:
the message of the thrown error, or `No items found in feed` when the attempt
parsed to an empty list (src/script.js lines 372-374). -/
def endpointFailMsg : Except String (List NewsItem) → String
  | Except.error e => e
  | Except.ok _ => "No items found in feed"

/-- The `lastError` message left after walking the whole feed list with
every attempt failing. -/
def lastFailMsg (att : String → Except String (List NewsItem))
    (lastError : Option String) : List String → String
  | [] => lastError.getD "Unknown error"
  | f :: rest => lastFailMsg att (some (endpointFailMsg (att f))) rest

deriving instance DecidableEq for Except

/-- A `new Date(text)` model on which no date text parses: every call
yields an Invalid Date. -/
def dnone : String → Option Int := fun _ => none

/-- An entry carrying only a title. -/
def mkEntry (t : String) : RawEntry :=
  { titleText := some t, link := none, descText := none, pubDateText := none }

/-- A well-formed RSS 2.0 payload of 5 entries in which entry 2 (0-based)
has a whitespace-only title. -/
def doc5 : XmlDoc :=
  { hasParserError := false
    rssItems := [mkEntry "T0", mkEntry "T1", mkEntry "  ", mkEntry "T3",
      mkEntry "T4"]
    atomEntries := [] }

/-- A well-formed RSS 2.0 payload of 10 entries with non-empty titles. -/
def doc10 : XmlDoc :=
  { hasParserError := false
    rssItems := [mkEntry "T0", mkEntry "T1", mkEntry "T2", mkEntry "T3",
      mkEntry "T4", mkEntry "T5", mkEntry "T6", mkEntry "T7", mkEntry "T8",
      mkEntry "T9"]
    atomEntries := [] }

/-- A well-formed payload of 9 entries whose first title is empty: at
least 8 raw entries exist, yet fewer than 8 items survive. -/
def doc9 : XmlDoc :=
  { hasParserError := false
    rssItems := [mkEntry "", mkEntry "T1", mkEntry "T2", mkEntry "T3",
      mkEntry "T4", mkEntry "T5", mkEntry "T6", mkEntry "T7", mkEntry "T8"]
    atomEntries := [] }

/-- A well-formed payload in which the title of every entry cleans to empty. -/
def docAllEmptyTitles : XmlDoc :=
  { hasParserError := false
    rssItems := [mkEntry "  ",
      { titleText := none, link := none, descText := none,
        pubDateText := none }]
    atomEntries := [] }

/-- An entry whose `<pubDate>` text does not parse as a date. -/
def entryBadDate : RawEntry :=
  { titleText := some "T", link := none, descText := none
    pubDateText := some "not-a-date" }

/-- A payload with the unparseable-date entry. -/
def docBadDate : XmlDoc :=
  { hasParserError := false, rssItems := [entryBadDate], atomEntries := [] }

/-- A payload with a single entry carrying no date element at all. -/
def docNoDate : XmlDoc :=
  { hasParserError := false, rssItems := [mkEntry "T"], atomEntries := [] }

/-- A transport on which the direct (no-proxy) strategy is blocked and the
first relay responds. -/
def fetchDirectFails : String → Except String String := fun u =>
  if u = "https://api.allorigins.win/raw?url=https://feeds.example.org/news.rss"
  then Except.ok "<rss></rss>"
  else Except.error "CORS blocked"

/-- A transport that always returns a fixed body. -/
def fetchEmptyFeed : String → Except String String :=
  fun _ => Except.ok "<rss></rss>"

theorem parseRSSGo_spec (now : Int) (dparse : String → Option Int) :
    ∀ (entries : List RawEntry) (i : Nat),
      parseRSSGo now dparse i entries =
        ((List.enumFrom i (entries.take (8 - i))).filter
            (fun p => decide (entryTitle p.2 ≠ ""))).map (mkItem now dparse)
  | [], i => by simp [parseRSSGo]
  | e :: rest, i => by
    by_cases h8 : 8 ≤ i
    · have h0 : 8 - i = 0 := Nat.sub_eq_zero_of_le h8
      have h0' : 8 - (i + 1) = 0 := by omega
      have ih := parseRSSGo_spec now dparse rest (i + 1)
      rw [h0'] at ih
      simp only [parseRSSGo, ge_iff_le, h8, if_true, ih, h0, List.take_zero,
        List.enumFrom, List.filter_nil, List.map_nil]
    · have hlt : ¬ (i ≥ 8) := h8
      have hs : 8 - i = (8 - (i + 1)) + 1 := by omega
      have ih := parseRSSGo_spec now dparse rest (i + 1)
      rw [hs, List.take_succ_cons]
      by_cases ht : entryTitle e ≠ ""
      · simp only [parseRSSGo, ge_iff_le, hlt, if_false, processEntry, ht,
          if_true, ih, List.enumFrom, List.filter_cons, decide_eq_true ht,
          List.map_cons, mkItem]
        rw [if_pos ht]
      · simp only [parseRSSGo, ge_iff_le, hlt, if_false, processEntry, ht,
          if_false, ih, List.enumFrom, List.filter_cons, decide_eq_false ht,
          List.map_cons, mkItem]
        simp [ht]

theorem parseRSSGo_length_le (now : Int) (dparse : String → Option Int)
    (entries : List RawEntry) : (parseRSSGo now dparse 0 entries).length ≤ 8 := by
  rw [parseRSSGo_spec]
  calc (((List.enumFrom 0 (entries.take (8 - 0))).filter
            (fun p => decide (entryTitle p.2 ≠ ""))).map (mkItem now dparse)).length
      = ((List.enumFrom 0 (entries.take (8 - 0))).filter
            (fun p => decide (entryTitle p.2 ≠ ""))).length := List.length_map _ _
    _ ≤ (List.enumFrom 0 (entries.take (8 - 0))).length := List.length_filter_le _ _
    _ = (entries.take (8 - 0)).length := List.enumFrom_length
    _ ≤ 8 := by simp [List.length_take_le]

theorem parseRSSGo_window (now : Int) (dparse : String → Option Int)
    (entries : List RawEntry) :
    parseRSSGo now dparse 0 entries = parseRSSGo now dparse 0 (entries.take 8) := by
  rw [parseRSSGo_spec, parseRSSGo_spec]
  simp [List.take_take]

theorem tryProxies_all_fail (fetch : String → Except String String)
    (enc : String → String) (url : String) :
    ∀ ps : List String,
      (∀ p ∈ ps, ∃ e, fetch (mkFetchUrl enc url p) = Except.error e) →
      (tryProxies fetch enc url ps).2 = Except.error "All proxies failed"
  | [], _ => rfl
  | p :: rest, h => by
    obtain ⟨e, he⟩ := h p (List.mem_cons_self p rest)
    have ih := tryProxies_all_fail fetch enc url rest
      (fun q hq => h q (List.mem_cons_of_mem p hq))
    simp only [tryProxies, he, ih]

theorem tryProxies_first_success (fetch : String → Except String String)
    (enc : String → String) (url : String) (b : String) :
    ∀ (failed : List String) (s : String) (rest : List String),
      (∀ p ∈ failed, ∃ e, fetch (mkFetchUrl enc url p) = Except.error e) →
      fetch (mkFetchUrl enc url s) = Except.ok b →
      tryProxies fetch enc url (failed ++ s :: rest) =
        ((failed ++ [s]).map (fun p => mkFetchUrl enc url p), Except.ok b)
  | [], s, rest, _, hs => by
    simp only [List.nil_append, tryProxies, hs, List.map_cons, List.map_nil]
  | p :: failed, s, rest, h, hs => by
    obtain ⟨e, he⟩ := h p (List.mem_cons_self p failed)
    have ih := tryProxies_first_success fetch enc url b failed s rest
      (fun q hq => h q (List.mem_cons_of_mem p hq)) hs
    simp only [List.cons_append, tryProxies, he, List.append_eq, ih,
      List.map_cons]

theorem lastFailMsg_getLast (att : String → Except String (List NewsItem)) :
    ∀ (feeds : List String) (lastError : Option String) (hne : feeds ≠ []),
      lastFailMsg att lastError feeds = endpointFailMsg (att (feeds.getLast hne))
  | [], _, hne => absurd rfl hne
  | [f], le, _ => rfl
  | f :: g :: rest, le, _ => by
    rw [show lastFailMsg att le (f :: g :: rest)
        = lastFailMsg att (some (endpointFailMsg (att f))) (g :: rest) from rfl,
      lastFailMsg_getLast att (g :: rest) (some (endpointFailMsg (att f)))
        (List.cons_ne_nil g rest)]
    rfl

theorem tryFeeds_cons_error (fetch : String → Except String String)
    (enc : String → String) (domParse : String → XmlDoc) (now : Int)
    (dparse : String → Option Int) (le : Option String) (f : String)
    (rest : List String) (e : String)
    (he : (endpointAttempt fetch enc domParse now dparse f).2 = Except.error e) :
    (tryFeeds fetch enc domParse now dparse le (f :: rest)).2 =
      (tryFeeds fetch enc domParse now dparse (some e) rest).2 := by
  simp only [tryFeeds, he]

theorem tryFeeds_cons_empty (fetch : String → Except String String)
    (enc : String → String) (domParse : String → XmlDoc) (now : Int)
    (dparse : String → Option Int) (le : Option String) (f : String)
    (rest : List String)
    (he : (endpointAttempt fetch enc domParse now dparse f).2 = Except.ok []) :
    (tryFeeds fetch enc domParse now dparse le (f :: rest)).2 =
      (tryFeeds fetch enc domParse now dparse
        (some "No items found in feed") rest).2 := by
  simp only [tryFeeds, he, List.length_nil, if_pos]

theorem tryFeeds_cons_success (fetch : String → Except String String)
    (enc : String → String) (domParse : String → XmlDoc) (now : Int)
    (dparse : String → Option Int) (le : Option String) (f : String)
    (rest : List String) (items : List NewsItem)
    (he : (endpointAttempt fetch enc domParse now dparse f).2 = Except.ok items)
    (hne : items ≠ []) :
    (tryFeeds fetch enc domParse now dparse le (f :: rest)).2 =
      FROutcome.success items
        (formatTimeAgo
          (match items.head? with
            | some it => it.pubDate
            | none => some now) now) := by
  have hlen : ¬ items.length = 0 := by
    simpa [List.length_eq_zero] using hne
  simp only [tryFeeds, he, hlen, if_false]

theorem tryFeeds_all_fail (fetch : String → Except String String)
    (enc : String → String) (domParse : String → XmlDoc) (now : Int)
    (dparse : String → Option Int) :
    ∀ (feeds : List String) (lastError : Option String),
      (∀ f ∈ feeds,
        (∃ e, attemptOf fetch enc domParse now dparse f = Except.error e) ∨
          attemptOf fetch enc domParse now dparse f = Except.ok []) →
      (tryFeeds fetch enc domParse now dparse lastError feeds).2 =
        FROutcome.failure
          (lastFailMsg (attemptOf fetch enc domParse now dparse) lastError feeds)
  | [], le, _ => rfl
  | f :: rest, le, h => by
    have ih := fun le2 => tryFeeds_all_fail fetch enc domParse now dparse rest le2
      (fun q hq => h q (List.mem_cons_of_mem f hq))
    have hstep : lastFailMsg (attemptOf fetch enc domParse now dparse) le (f :: rest)
        = lastFailMsg (attemptOf fetch enc domParse now dparse)
            (some (endpointFailMsg (attemptOf fetch enc domParse now dparse f)))
            rest := rfl
    rcases h f (List.mem_cons_self f rest) with ⟨e, he⟩ | hok
    · have hmsg : endpointFailMsg (attemptOf fetch enc domParse now dparse f) = e := by
        rw [he]
        rfl
      rw [tryFeeds_cons_error fetch enc domParse now dparse le f rest e he,
        ih (some e), hstep, hmsg]
    · have hmsg : endpointFailMsg (attemptOf fetch enc domParse now dparse f)
          = "No items found in feed" := by
        rw [hok]
        rfl
      rw [tryFeeds_cons_empty fetch enc domParse now dparse le f rest hok,
        ih (some "No items found in feed"), hstep, hmsg]

theorem tryFeeds_success_iff (fetch : String → Except String String)
    (enc : String → String) (domParse : String → XmlDoc) (now : Int)
    (dparse : String → Option Int) :
    ∀ (feeds : List String) (lastError : Option String),
      (∃ items ut,
          (tryFeeds fetch enc domParse now dparse lastError feeds).2 =
            FROutcome.success items ut) ↔
        ∃ f ∈ feeds, ∃ items,
          attemptOf fetch enc domParse now dparse f = Except.ok items ∧
            items ≠ []
  | [], le => by simp [tryFeeds]
  | f :: rest, le => by
    rcases hatt : (endpointAttempt fetch enc domParse now dparse f).2 with e | its
    · rw [tryFeeds_cons_error fetch enc domParse now dparse le f rest e hatt,
        tryFeeds_success_iff fetch enc domParse now dparse rest (some e)]
      constructor
      · rintro ⟨g, hg, w⟩
        exact ⟨g, List.mem_cons_of_mem f hg, w⟩
      · rintro ⟨g, hg, its2, h1, h2⟩
        rcases List.mem_cons.mp hg with rfl | hg2
        · rw [attemptOf, hatt] at h1
          exact absurd h1 (by simp)
        · exact ⟨g, hg2, its2, h1, h2⟩
    · by_cases hlen : its = []
      · subst hlen
        rw [tryFeeds_cons_empty fetch enc domParse now dparse le f rest hatt,
          tryFeeds_success_iff fetch enc domParse now dparse rest
            (some "No items found in feed")]
        constructor
        · rintro ⟨g, hg, w⟩
          exact ⟨g, List.mem_cons_of_mem f hg, w⟩
        · rintro ⟨g, hg, its2, h1, h2⟩
          rcases List.mem_cons.mp hg with rfl | hg2
          · rw [attemptOf, hatt] at h1
            have : its2 = [] := by
              simpa using h1.symm
            exact absurd this h2
          · exact ⟨g, hg2, its2, h1, h2⟩
      · rw [tryFeeds_cons_success fetch enc domParse now dparse le f rest its hatt hlen]
        constructor
        · intro _
          exact ⟨f, List.mem_cons_self f rest, its, by rw [attemptOf, hatt], hlen⟩
        · intro _
          exact ⟨its, _, rfl⟩

/-- Claim C5: the relative-time buckets. An invalid or missing date
(`none`) renders as the just-updated text; for a valid date the
difference `now - d` buckets as: below one minute (including every
negative delta, i.e. any future timestamp) → just updated; below 60
minutes → `N分钟前更新` with `N = floor(diff/60000)`; below 24 hours →
`N小时前更新`; otherwise `N天前更新`. -/
theorem formatTimeAgo_buckets (date : Option Int) (now : Int) :
    (date = none → formatTimeAgo date now = "刚刚更新") ∧
      ∀ d, date = some d →
        (now - d < 60000 → formatTimeAgo date now = "刚刚更新") ∧
        (60000 ≤ now - d → now - d < 3600000 →
          formatTimeAgo date now =
            toString (Int.fdiv (now - d) 60000) ++ "分钟前更新") ∧
        (3600000 ≤ now - d → now - d < 86400000 →
          formatTimeAgo date now =
            toString (Int.fdiv (Int.fdiv (now - d) 60000) 60) ++ "小时前更新") ∧
        (86400000 ≤ now - d →
          formatTimeAgo date now =
            toString (Int.fdiv (Int.fdiv (Int.fdiv (now - d) 60000) 60) 24)
              ++ "天前更新") := by
  have he : ∀ x : Int, Int.fdiv x 60000 = x / 60000 :=
    fun x => Int.fdiv_eq_ediv x (by norm_num)
  have he60 : ∀ x : Int, Int.fdiv x 60 = x / 60 :=
    fun x => Int.fdiv_eq_ediv x (by norm_num)
  have he24 : ∀ x : Int, Int.fdiv x 24 = x / 24 :=
    fun x => Int.fdiv_eq_ediv x (by norm_num)
  constructor
  · rintro rfl
    rfl
  · rintro d rfl
    refine ⟨?_, ?_, ?_, ?_⟩
    · intro h
      simp only [formatTimeAgo]
      by_cases hneg : Int.fdiv (now - d) 60000 < 0
      · rw [if_pos hneg]
      · rw [if_neg hneg, if_pos]
        rw [he] at hneg ⊢
        omega
    · intro h1 h2
      have c1 : ¬ Int.fdiv (now - d) 60000 < 0 := by rw [he]; omega
      have c2 : ¬ Int.fdiv (now - d) 60000 < 1 := by rw [he]; omega
      have c3 : Int.fdiv (now - d) 60000 < 60 := by rw [he]; omega
      simp only [formatTimeAgo, if_neg c1, if_neg c2, if_pos c3]
    · intro h1 h2
      have c1 : ¬ Int.fdiv (now - d) 60000 < 0 := by rw [he]; omega
      have c2 : ¬ Int.fdiv (now - d) 60000 < 1 := by rw [he]; omega
      have c3 : ¬ Int.fdiv (now - d) 60000 < 60 := by rw [he]; omega
      have c4 : Int.fdiv (Int.fdiv (now - d) 60000) 60 < 24 := by
        rw [he60, he]; omega
      simp only [formatTimeAgo, if_neg c1, if_neg c2, if_neg c3, if_pos c4]
    · intro h1
      have c1 : ¬ Int.fdiv (now - d) 60000 < 0 := by rw [he]; omega
      have c2 : ¬ Int.fdiv (now - d) 60000 < 1 := by rw [he]; omega
      have c3 : ¬ Int.fdiv (now - d) 60000 < 60 := by rw [he]; omega
      have c4 : ¬ Int.fdiv (Int.fdiv (now - d) 60000) 60 < 24 := by
        rw [he60, he]; omega
      simp only [formatTimeAgo, if_neg c1, if_neg c2, if_neg c3, if_neg c4]

theorem parseRSSGo_all_empty (now : Int) (dparse : String → Option Int) :
    ∀ (l : List RawEntry) (i : Nat),
      (∀ e ∈ l, entryTitle e = "") → parseRSSGo now dparse i l = []
  | [], _, _ => rfl
  | e :: rest, i, h => by
    have ht := h e (List.mem_cons_self e rest)
    have ih := parseRSSGo_all_empty now dparse rest (i + 1)
      (fun q hq => h q (List.mem_cons_of_mem e hq))
    by_cases h8 : i ≥ 8
    · simp only [parseRSSGo, h8, if_true, ih]
    · simp only [parseRSSGo, h8, if_false, processEntry, ih]
      simp [ht]

/-- Claim C1, counterexample: on the 5-entry payload whose entry 2 has an
empty title, `parseRSS` returns 4 items whose featured flags are
`[true, true, false, false]` — the item at post-filter rank 2 (raw index
3) is not featured — while the claim requires featured flags
`[true, true, true, false]` (featured exactly at post-filter ranks
0, 1, 2). -/
theorem parseRSS_featured_not_post_filter_rank :
    (parseRSS doc5 7 dnone).map (fun l => l.map NewsItem.isHot)
        = Except.ok [true, true, false, false] ∧
      Except.ok [true, true, false, false]
        ≠ (Except.ok [true, true, true, false] : Except String (List Bool)) :=
  ⟨by decide, by decide⟩

/-- Claim C1, amended: the `rank` of a returned item (its 0-based position
in the returned list) is contiguous over the processed entries, but
`isFeatured` comes from the RAW index of the entry among all candidate entries
(`isHot = index < 3` at src/script.js line 205), not from the post-filter
rank: the output equals the title-surviving entries among the first 8 raw
entries, in order, each tagged with the featured flag of its raw index. On the
5-entry payload with the title of entry 2 empty, the 4 returned items are
T0, T1, T3, T4 and the featured flags are true for ranks 0 and 1 only. -/
theorem parseRSS_rank_contiguous_featured_raw_index :
    (∀ (entries : List RawEntry) (now : Int) (dparse : String → Option Int),
      parseRSSGo now dparse 0 entries =
        ((List.enumFrom 0 (entries.take 8)).filter
            (fun p => decide (entryTitle p.2 ≠ ""))).map (mkItem now dparse)) ∧
      (parseRSS doc5 7 dnone).map (fun l => l.map NewsItem.title)
        = Except.ok ["T0", "T1", "T3", "T4"] ∧
      (parseRSS doc5 7 dnone).map (fun l => l.map NewsItem.isHot)
        = Except.ok [true, true, false, false] := by
  refine ⟨?_, by decide, by decide⟩
  intro entries now dparse
  simpa using parseRSSGo_spec now dparse entries 0

/-- Claim C2: the code does NOT default an unparseable date to the current
time. With `now = 12345` and a date model on which `not-a-date` is
unparseable, the `pubDate` of the single item is an Invalid Date (`none`), not
`some 12345`; only a missing date element yields the current time. -/
theorem parseRSS_unparseable_date_invalid :
    (parseRSS docBadDate 12345 dnone).map (fun l => l.map NewsItem.pubDate)
        = Except.ok [none] ∧
      (parseRSS docNoDate 12345 dnone).map (fun l => l.map NewsItem.pubDate)
        = Except.ok [some 12345] ∧
      (none : Option Int) ≠ some 12345 :=
  ⟨by decide, by decide, by decide⟩

/-- Claim C3, counterexample: when every strategy fails — here every fetch
throws `boom` — `fetchWithProxy` throws the fixed message
`All proxies failed`, which is not the last underlying error. -/
theorem fetchWithProxy_discards_last_error :
    (fetchWithProxy (fun _ => Except.error "boom") (fun s => s)
        "https://example.org/feed").2 = Except.error "All proxies failed" ∧
      (Except.error "All proxies failed" : Except String String)
        ≠ Except.error "boom" :=
  ⟨rfl, by decide⟩

/-- Claim C3, amended: if the fetch attempt of every access strategy fails,
`fetchWithProxy` fails with the constant error `All proxies failed`; the
underlying errors (including the last one) are only logged, not carried on
the thrown error. -/
theorem fetchWithProxy_all_fail_fixed_error
    (fetch : String → Except String String) (enc : String → String)
    (url : String)
    (hall : ∀ proxy ∈ CORS_PROXIES,
      ∃ e, fetch (mkFetchUrl enc url proxy) = Except.error e) :
    (fetchWithProxy fetch enc url).2 = Except.error "All proxies failed" :=
  tryProxies_all_fail fetch enc url CORS_PROXIES hall

/-- Witness for the amended claim C3 at a concrete failing transport. -/
theorem fetchWithProxy_all_fail_fixed_error_witness :
    (fetchWithProxy (fun _ => Except.error "netdown") (fun s => s)
        "https://feeds.example.org/news.rss").2
      = Except.error "All proxies failed" :=
  fetchWithProxy_all_fail_fixed_error (fun _ => Except.error "netdown")
    (fun s => s) "https://feeds.example.org/news.rss"
    (fun _ _ => ⟨"netdown", rfl⟩)

/-- Claim C4: `parseRSS` never returns more than 8 items, the 8-item
window is taken over raw entry positions (the output only depends on the
first 8 raw entries), the 10-valid-entry payload yields exactly the first
8 titles with featured flags at ranks 0-2 only, and a 9-entry payload with
one empty title among the first 8 yields only 7 items. -/
theorem parseRSS_cap_eight :
    (∀ (now : Int) (dparse : String → Option Int) (entries : List RawEntry),
        (parseRSSGo now dparse 0 entries).length ≤ 8) ∧
      (∀ (now : Int) (dparse : String → Option Int) (entries : List RawEntry),
        parseRSSGo now dparse 0 entries =
          parseRSSGo now dparse 0 (entries.take 8)) ∧
      (parseRSS doc10 7 dnone).map (fun l => l.map NewsItem.title)
        = Except.ok ["T0", "T1", "T2", "T3", "T4", "T5", "T6", "T7"] ∧
      (parseRSS doc10 7 dnone).map (fun l => l.map NewsItem.isHot)
        = Except.ok [true, true, true, false, false, false, false, false] ∧
      doc9.rssItems.length = 9 ∧
      (parseRSS doc9 7 dnone).map List.length = Except.ok 7 :=
  ⟨fun now dparse entries => parseRSSGo_length_le now dparse entries,
    fun now dparse entries => parseRSSGo_window now dparse entries,
    by decide, by decide, by decide, by decide⟩

/-- Witness for claim C5: a timestamp 90 seconds in the past falls in the
one-minute bucket. -/
theorem formatTimeAgo_buckets_witness :
    formatTimeAgo (some 0) 90000 = "1分钟前更新" := by
  rw [((formatTimeAgo_buckets (some 0) 90000).2 0 rfl).2.1 (by decide)
    (by decide)]
  decide

/-- Claim C6: when the card exists and every candidate endpoint attempt
fails (throws) or parses to an empty item list, `fetchAndRenderSource`
returns `false` and renders an error card carrying the message of the last
endpoint failure (its thrown error, or `No items found in feed` for an
empty parse). The model is a total function: every endpoint error is
caught inside the loop, so no exception reaches the caller. -/
theorem fetchAndRenderSource_all_fail (fetch : String → Except String String)
    (enc : String → String) (domParse : String → XmlDoc) (now : Int)
    (dparse : String → Option Int) (feeds : List String) (hne : feeds ≠ [])
    (hall : ∀ f ∈ feeds,
      (∃ e, attemptOf fetch enc domParse now dparse f = Except.error e) ∨
        attemptOf fetch enc domParse now dparse f = Except.ok []) :
    (fetchAndRenderSource fetch enc domParse now dparse true feeds).retval
        = false ∧
      (fetchAndRenderSource fetch enc domParse now dparse true feeds).rendered
        = some (FROutcome.failure (endpointFailMsg
            (attemptOf fetch enc domParse now dparse (feeds.getLast hne)))) := by
  have h2 := tryFeeds_all_fail fetch enc domParse now dparse feeds none hall
  rw [lastFailMsg_getLast (attemptOf fetch enc domParse now dparse) feeds none
    hne] at h2
  simp only [fetchAndRenderSource, if_true, h2]
  exact ⟨trivial, trivial⟩

/-- Witness for claim C6: two endpoints, the transport always throwing
`netdown`; both endpoint attempts fail with `All proxies failed`, the
function returns `false`, and the error card carries the last attempted
message. -/
theorem fetchAndRenderSource_all_fail_witness :
    (fetchAndRenderSource (fun _ => Except.error "netdown") (fun s => s)
          (fun _ => { hasParserError := true, rssItems := [], atomEntries := [] })
          0 dnone true
          ["https://a.example/rss", "https://b.example/rss"]).retval = false ∧
      (fetchAndRenderSource (fun _ => Except.error "netdown") (fun s => s)
          (fun _ => { hasParserError := true, rssItems := [], atomEntries := [] })
          0 dnone true
          ["https://a.example/rss", "https://b.example/rss"]).rendered
        = some (FROutcome.failure "All proxies failed") := by
  have h := fetchAndRenderSource_all_fail (fun _ => Except.error "netdown")
    (fun s => s)
    (fun _ => { hasParserError := true, rssItems := [], atomEntries := [] })
    0 dnone ["https://a.example/rss", "https://b.example/rss"]
    (by decide)
    (fun f _ => Or.inl ⟨"All proxies failed", rfl⟩)
  refine ⟨h.1, ?_⟩
  rw [h.2]
  decide

/-- Claim C7: `fetchWithProxy` walks the strategies in declared order and
stops at the first success: when the declared list splits as a failing
prefix followed by a succeeding strategy, the attempted fetch URLs are
exactly those of the prefix plus that of the succeeding one — nothing after the first
success is attempted, and the attempts happen one after another in that
order — and the returned body is that of the first success. -/
theorem fetchWithProxy_declared_order_first_success
    (fetch : String → Except String String) (enc : String → String)
    (url : String) (b : String) (failed : List String) (s : String)
    (rest : List String) (hsplit : CORS_PROXIES = failed ++ s :: rest)
    (hfail : ∀ p ∈ failed, ∃ e, fetch (mkFetchUrl enc url p) = Except.error e)
    (hsucc : fetch (mkFetchUrl enc url s) = Except.ok b) :
    fetchWithProxy fetch enc url =
      ((failed ++ [s]).map (fun p => mkFetchUrl enc url p), Except.ok b) := by
  rw [fetchWithProxy, hsplit]
  exact tryProxies_first_success fetch enc url b failed s rest hfail hsucc

/-- Witness for claim C7: the direct attempt fails, the first relay
succeeds, the trace holds exactly those two fetch URLs in declared order,
and the second relay is never attempted. -/
theorem fetchWithProxy_declared_order_first_success_witness :
    fetchWithProxy fetchDirectFails (fun s => s)
        "https://feeds.example.org/news.rss" =
      (["https://feeds.example.org/news.rss",
        "https://api.allorigins.win/raw?url=https://feeds.example.org/news.rss"],
        Except.ok "<rss></rss>") := by
  rw [fetchWithProxy_declared_order_first_success fetchDirectFails (fun s => s)
    "https://feeds.example.org/news.rss" "<rss></rss>" [""]
    "https://api.allorigins.win/raw?url=" ["https://corsproxy.io/?"] rfl
    (by
      intro p hp
      rcases List.mem_singleton.mp hp with rfl
      exact ⟨"CORS blocked", by decide⟩)
    (by decide)]
  decide

/-- Claim C8, counterexample: on a well-formed payload from which zero
items survive the title filter, `parseRSS` returns normally with the empty
item list — it does not fail with an `EmptyFeed` (or any) error. -/
theorem parseRSS_empty_survivors_ok_empty :
    parseRSS docAllEmptyTitles 0 dnone = Except.ok [] ∧
      (Except.ok ([] : List NewsItem) : Except String (List NewsItem))
        ≠ Except.error "EmptyFeed" :=
  ⟨by decide, by decide⟩

/-- Claim C8, amended: `parseRSS` returns an empty item list (not an
error) when zero items survive filtering; it is the source resolver that
turns the empty parse into an endpoint-level failure, by throwing
`No items found in feed` inside its `try` — recorded in `lastError`, and
the walk moves to the next endpoint — so an empty parse never becomes a
success. -/
theorem parseRSS_empty_is_resolver_failure (now : Int)
    (dparse : String → Option Int) (doc : XmlDoc)
    (hok : doc.hasParserError = false)
    (hemp : ∀ e ∈ selectedEntries doc, entryTitle e = "")
    (fetch : String → Except String String) (enc : String → String)
    (domParse : String → XmlDoc) (feedUrl : String) (rest : List String)
    (lastError : Option String)
    (hatt : (endpointAttempt fetch enc domParse now dparse feedUrl).2
      = Except.ok []) :
    parseRSS doc now dparse = Except.ok [] ∧
      (tryFeeds fetch enc domParse now dparse lastError (feedUrl :: rest)).2 =
        (tryFeeds fetch enc domParse now dparse
          (some "No items found in feed") rest).2 := by
  constructor
  · rw [parseRSS, if_neg (by simp [hok]),
      parseRSSGo_all_empty now dparse (selectedEntries doc) 0 hemp]
  · exact tryFeeds_cons_empty fetch enc domParse now dparse lastError feedUrl
      rest hatt

/-- Witness for the amended claim C8 at a concrete payload whose titles
all clean to empty: the parse is `ok []`, and the resolver records
`No items found in feed` and fails. -/
theorem parseRSS_empty_is_resolver_failure_witness :
    parseRSS docAllEmptyTitles 0 dnone = Except.ok [] ∧
      (tryFeeds fetchEmptyFeed (fun s => s) (fun _ => docAllEmptyTitles) 0
          dnone none ["https://a.example/rss"]).2 =
        (tryFeeds fetchEmptyFeed (fun s => s) (fun _ => docAllEmptyTitles) 0
          dnone (some "No items found in feed") []).2 :=
  parseRSS_empty_is_resolver_failure 0 dnone docAllEmptyTitles rfl (by decide)
    fetchEmptyFeed (fun s => s) (fun _ => docAllEmptyTitles)
    "https://a.example/rss" [] none (by decide)

/-- Claim C9, counterexample: the code has no cycle sequence numbers; a
completion write lands exactly when the card element captured at the
start of the resolution is still attached. When the write of the OLD cycle lands
first (both resolutions captured element 0), the later write of the NEW cycle
is silently dropped — the slot keeps `cycle1` — whereas the claimed
sequence-number discipline keeps the newer `cycle2`. The two
write disciplines disagree, so the claimed mechanism is not what the code
implements. -/
theorem completion_write_not_sequence_guarded :
    (completeWrite 0 "cycle2" (completeWrite 0 "cycle1"
          { current := 0, content := none, nextId := 1 })).content
        = some "cycle1" ∧
      (seqWrite 2 "cycle2" (seqWrite 1 "cycle1"
          { seq := 0, content := none })).content = some "cycle2" ∧
      (some "cycle1" : Option String) ≠ some "cycle2" :=
  ⟨by decide, by decide, by decide⟩

/-- Claim C9, amended: in the claimed scenario the recorded result does
survive, but by element-reference capture, not sequence numbers: if cycle
2 had its write recorded effectively (its captured element was the attached
one) and the write of cycle 1 — whose captured element is from an earlier or
equal state, hence not the freshly attached one — completes afterwards,
then the write of cycle 1 is a no-op and the slot keeps the result of cycle 2. The
freshness hypothesis `current < nextId` is the invariant every reachable
slot state satisfies. -/
theorem stale_write_ignored (s0 : SlotState) (c1 c2 : Nat) (r1 r2 : String)
    (hwf : s0.current < s0.nextId) (h1 : c1 ≤ s0.current)
    (h2 : c2 = s0.current) :
    completeWrite c1 r1 (completeWrite c2 r2 s0) = completeWrite c2 r2 s0 ∧
      (completeWrite c1 r1 (completeWrite c2 r2 s0)).content = some r2 := by
  have hw2 : completeWrite c2 r2 s0 =
      { current := s0.nextId, content := some r2, nextId := s0.nextId + 1 } := by
    rw [completeWrite, if_pos h2]
  have hne : ¬ c1 = s0.nextId := by omega
  constructor
  · rw [hw2, completeWrite, if_neg hne]
  · rw [hw2, completeWrite, if_neg hne]

/-- Witness for the amended claim C9: concrete two-cycle scenario in which
the write of cycle 2 landed first; the late write of cycle 1 changes nothing. -/
theorem stale_write_ignored_witness :
    completeWrite 0 "cycle1" (completeWrite 0 "cycle2"
          { current := 0, content := none, nextId := 1 })
        = completeWrite 0 "cycle2" { current := 0, content := none, nextId := 1 } ∧
      (completeWrite 0 "cycle1" (completeWrite 0 "cycle2"
          { current := 0, content := none, nextId := 1 })).content
        = some "cycle2" :=
  stale_write_ignored { current := 0, content := none, nextId := 1 } 0 0
    "cycle1" "cycle2" (by decide) (by decide) (by decide)

/-- Claim C10: when no card element for the source key exists,
`fetchAndRenderSource` returns `false` immediately — no fetch is issued
(empty fetch trace), nothing is rendered; and in general its return value
is `true` exactly when the card exists and the attempt of some endpoint parsed
to a non-empty item list. -/
theorem fetchAndRenderSource_guard_and_retval
    (fetch : String → Except String String) (enc : String → String)
    (domParse : String → XmlDoc) (now : Int) (dparse : String → Option Int)
    (cardExists : Bool) (feeds : List String) :
    (cardExists = false →
        fetchAndRenderSource fetch enc domParse now dparse cardExists feeds =
          { retval := false, rendered := none, fetchTrace := [] }) ∧
      ((fetchAndRenderSource fetch enc domParse now dparse cardExists
            feeds).retval = true ↔
        cardExists = true ∧ ∃ f ∈ feeds, ∃ items,
          attemptOf fetch enc domParse now dparse f = Except.ok items ∧
            items ≠ []) := by
  constructor
  · rintro rfl
    rfl
  · cases cardExists
    · simp [fetchAndRenderSource]
    · rw [show (true = true ∧ ∃ f ∈ feeds, ∃ items,
          attemptOf fetch enc domParse now dparse f = Except.ok items ∧
            items ≠ []) ↔ ∃ f ∈ feeds, ∃ items,
          attemptOf fetch enc domParse now dparse f = Except.ok items ∧
            items ≠ [] from by simp]
      rw [← tryFeeds_success_iff fetch enc domParse now dparse feeds none]
      constructor
      · intro hr
        cases hout : (tryFeeds fetch enc domParse now dparse none feeds).2 with
        | success items ut => exact ⟨items, ut, rfl⟩
        | failure msg =>
          exfalso
          simp only [fetchAndRenderSource, if_true, hout] at hr
          exact Bool.noConfusion hr
      · rintro ⟨items, ut, hs⟩
        simp only [fetchAndRenderSource, if_true, hs]

/-- Witness for claim C10: with no card element the function returns
`false` with an empty fetch trace and nothing rendered. -/
theorem fetchAndRenderSource_guard_witness :
    fetchAndRenderSource (fun _ => Except.error "netdown") (fun s => s)
        (fun _ => { hasParserError := true, rssItems := [], atomEntries := [] })
        0 dnone false ["https://a.example/rss"]
      = { retval := false, rendered := none, fetchTrace := [] } :=
  (fetchAndRenderSource_guard_and_retval (fun _ => Except.error "netdown")
    (fun s => s)
    (fun _ => { hasParserError := true, rssItems := [], atomEntries := [] })
    0 dnone false ["https://a.example/rss"]).1 rfl
